import Mathlib

/-!
# Verification of the solcat client (coachchucksol/solcat)

Shallow embedding of the TypeScript client in
`src/app/app/controllers/solcat.ts`, `src/app/app/actions/solana.ts`,
`src/app/app/page.tsx` and the earlier revisions kept in `src/unnamed/`.

Node `Buffer`s are modelled as `List Nat` with every entry a byte value;
`Buffer.alloc n` zero-fills, `writeUInt8` / `writeBigUInt64LE` store the
little-endian byte decomposition at fixed offsets, and `slice` clamps to
the buffer bounds exactly as Node's `Buffer.slice` does.  JavaScript
`bigint` values are `Nat`; fallible operations return `Except` / `Option`.
Functions of the external `@solana/web3.js` and `@solana/spl-token`
libraries (PDA derivation, associated-token derivation, base58 codecs)
are not part of this repository; they are carried as fields of an
explicit `Env` record so that every theorem quantifies over their
behaviour.
-/

namespace Solcat

/-- A Solana public key as the client sees it: an opaque 32-byte value
(`PublicKey` from `@solana/web3.js`). -/
structure PublicKey where
  bytes : List Nat
  deriving DecidableEq, Repr

instance : Inhabited PublicKey := ⟨⟨List.replicate 32 0⟩⟩

/-- One entry of a `TransactionInstruction` key list. -/
structure AccountMeta where
  pubkey : PublicKey
  isSigner : Bool
  isWritable : Bool
  deriving DecidableEq, Repr

/-- `TransactionInstruction` from `@solana/web3.js`: ordered account
metas, the program id, and the serialized data buffer. -/
structure TransactionInstruction where
  keys : List AccountMeta
  programId : PublicKey
  data : List Nat
  deriving DecidableEq, Repr

/-- `Buffer.alloc n` — a zero-filled buffer of `n` bytes. -/
def bufferAlloc (n : Nat) : List Nat := List.replicate n 0

/-- Byte `j` of the little-endian encoding of `v` as a `u64`. -/
def u64Byte (v j : Nat) : Nat := v / 256 ^ j % 256

/-- `buf.writeUInt8(v, off)`.  Node asserts `0 ≤ v ≤ 255`; we store
`v % 256`, and the theorems below carry the range hypothesis under which
this agrees with Node. -/
def writeUInt8 (buf : List Nat) (off v : Nat) : List Nat :=
  buf.set off (v % 256)

/-- `buf.writeBigUInt64LE(v, off)` — the eight little-endian bytes of `v`
stored at offsets `off .. off+7`. -/
def writeBigUInt64LE (buf : List Nat) (off v : Nat) : List Nat :=
  let b0 := buf.set off (u64Byte v 0)
  let b1 := b0.set (off + 1) (u64Byte v 1)
  let b2 := b1.set (off + 2) (u64Byte v 2)
  let b3 := b2.set (off + 3) (u64Byte v 3)
  let b4 := b3.set (off + 4) (u64Byte v 4)
  let b5 := b4.set (off + 5) (u64Byte v 5)
  let b6 := b5.set (off + 6) (u64Byte v 6)
  b6.set (off + 7) (u64Byte v 7)

/-- `LOCK_VAULT_IX_DISCRIMINATOR` (`solcat.ts` line 26). -/
def LOCK_VAULT_IX_DISCRIMINATOR : Nat := 1

/-- `EMPTY_VAULT_IX_DISCRIMINATOR` (`solcat.ts` line 27). -/
def EMPTY_VAULT_IX_DISCRIMINATOR : Nat := 2

/-- `VAULT_DISCRIMINATOR` (`solcat.ts` line 24). -/
def VAULT_DISCRIMINATOR : Nat := 1

/-- `VAULT_SEED = Buffer.from('VAULT')` (`solcat.ts` line 23): the ASCII
bytes of `"VAULT"`. -/
def VAULT_SEED : List Nat := "VAULT".data.map Char.toNat

/-- `LockVaultIxData` (`solcat.ts` lines 154–158): `tokensToLock` is
`bigint | null`. -/
structure LockVaultIxData where
  vaultBump : Nat
  slotsToLock : Nat
  tokensToLock : Option Nat
  deriving DecidableEq, Repr

/-- `serializeLockVaultIxData` from `src/app/app/controllers/solcat.ts`
lines 160–202 (the revision with explicit `#[repr(C)]` alignment
padding): a 32-byte buffer; opcode at 0, bump at 1, 6 padding bytes,
`slots_to_lock` LE at 8, then the `Option<u64>` region — presence byte at
16, 7 padding bytes, value LE at 24. -/
def serializeLockVaultIxData (data : LockVaultIxData) : List Nat :=
  let buffer := bufferAlloc 32
  let buffer := writeUInt8 buffer 0 LOCK_VAULT_IX_DISCRIMINATOR
  let buffer := writeUInt8 buffer 1 data.vaultBump
  -- offset += 6 : padding to align slots_to_lock at offset 8
  let buffer := writeBigUInt64LE buffer 8 data.slotsToLock
  match data.tokensToLock with
  | some t =>
      let buffer := writeUInt8 buffer 16 1
      -- 7 bytes padding, value at offset 24
      writeBigUInt64LE buffer 24 t
  | none => writeUInt8 buffer 16 0

/-- `serializeEmptyVaultIxData` (`solcat.ts` lines 206–214): a single
opcode byte. -/
def serializeEmptyVaultIxData : List Nat :=
  writeUInt8 (bufferAlloc 1) 0 EMPTY_VAULT_IX_DISCRIMINATOR

/-- The external-library surface the client imports from
`@solana/web3.js` and `@solana/spl-token`.  These functions are not code
of this repository, so they are carried abstractly and every theorem
quantifies over them. -/
structure Env where
  /-- `PublicKey.findProgramAddressSync(seeds, programId)`. -/
  findProgramAddressSync : List (List Nat) → PublicKey → PublicKey × Nat
  /-- `getAssociatedTokenAddressSync(mint, owner, allowOwnerOffCurve)`. -/
  getAssociatedTokenAddressSync : PublicKey → PublicKey → Bool → PublicKey
  /-- `createAssociatedTokenAccountIdempotentInstruction(payer, ata, owner, mint, tokenProgram)`. -/
  createAssociatedTokenAccountIdempotentIx :
    PublicKey → PublicKey → PublicKey → PublicKey → PublicKey → TransactionInstruction
  /-- `TOKEN_PROGRAM_ID` from `@solana/spl-token`. -/
  tokenProgramId : PublicKey
  /-- `SystemProgram.programId` from `@solana/web3.js`. -/
  systemProgramId : PublicKey
  /-- The module constant `PROGRAM_ID = new PublicKey('CATvuZTNuyeBkoo5Tpeqtxcn51NDLNMExWPZ5vzQxkEg')`
  (`solcat.ts` line 14); the base58 decoding lives in web3.js, so the
  decoded key is abstract here. -/
  programId : PublicKey
  /-- `new PublicKey(string)`: `none` models the constructor throwing on
  an invalid key string. -/
  pubKeyFromString : String → Option PublicKey
  /-- `PublicKey.prototype.toString()` (base58). -/
  pubKeyToString : PublicKey → String
  /-- `bigint.prototype.toString()` (decimal). -/
  bigIntToString : Nat → String

/-- `vaultAddress` (`solcat.ts` lines 30–36): PDA from the ordered seeds
`[VAULT_SEED, admin.toBuffer(), mint.toBuffer()]` and `PROGRAM_ID`. -/
def vaultAddress (env : Env) (admin mint : PublicKey) : PublicKey × Nat :=
  env.findProgramAddressSync [VAULT_SEED, admin.bytes, mint.bytes] env.programId

/-- `Vault` (`solcat.ts` lines 39–50). -/
structure Vault where
  discriminator : Nat
  bump : Nat
  admin : PublicKey
  mint : PublicKey
  mintDecimals : Nat
  vaultToken : PublicKey
  startSlot : Nat
  slotsLocked : Nat
  tokensLocked : Nat
  reserved : List Nat
  deriving DecidableEq, Repr

/-- `VaultJSON` (`solcat.ts` lines 52–63).  The TypeScript record holds
JavaScript strings for the three keys and the three `u64` fields; the
string type is abstracted as `σ` because the base58/decimal codecs live
in external libraries. -/
structure VaultJSON (σ : Type) where
  discriminator : Nat
  bump : Nat
  admin : σ
  mint : σ
  mintDecimals : Nat
  vaultToken : σ
  startSlot : σ
  slotsLocked : σ
  tokensLocked : σ
  reserved : List Nat
  deriving DecidableEq, Repr

/-- `vaultToJSON` (`solcat.ts` lines 65–78): keys via
`PublicKey.toString()`, `u64` fields via `bigint.toString()`, `reserved`
via `Array.from`. -/
def vaultToJSON {σ : Type} (pkToString : PublicKey → σ) (bigIntToString : Nat → σ)
    (vault : Vault) : VaultJSON σ where
  discriminator := vault.discriminator
  bump := vault.bump
  admin := pkToString vault.admin
  mint := pkToString vault.mint
  mintDecimals := vault.mintDecimals
  vaultToken := pkToString vault.vaultToken
  startSlot := bigIntToString vault.startSlot
  slotsLocked := bigIntToString vault.slotsLocked
  tokensLocked := bigIntToString vault.tokensLocked
  reserved := vault.reserved

/-- `vaultFromJSON` (`solcat.ts` lines 80–93): keys via
`new PublicKey(string)`, `u64` fields via `BigInt(string)`, `reserved`
via `new Uint8Array(array)`.  Both constructors throw on malformed
input, modelled by `Option`. -/
def vaultFromJSON {σ : Type} (pkFromString : σ → Option PublicKey)
    (bigIntFromString : σ → Option Nat) (json : VaultJSON σ) : Option Vault := do
  let admin ← pkFromString json.admin
  let mint ← pkFromString json.mint
  let vaultToken ← pkFromString json.vaultToken
  let startSlot ← bigIntFromString json.startSlot
  let slotsLocked ← bigIntFromString json.slotsLocked
  let tokensLocked ← bigIntFromString json.tokensLocked
  some ⟨json.discriminator, json.bump, admin, mint, json.mintDecimals, vaultToken,
        startSlot, slotsLocked, tokensLocked, json.reserved⟩

/-- The runtime errors Node / web3.js can throw inside
`deserializeVault`: `Buffer` reads out of range, and the `PublicKey`
constructor rejecting byte input longer than 32 bytes. -/
inductive JsError where
  | rangeError
  | invalidPublicKeyInput
  deriving DecidableEq, Repr

/-- `buf.readUInt8(off)` — throws `ERR_OUT_OF_RANGE` unless
`off + 1 ≤ buf.length`. -/
def readUInt8 (buf : List Nat) (off : Nat) : Except JsError Nat :=
  if h : off < buf.length then .ok buf[off] else .error .rangeError

/-- The value of eight little-endian bytes starting at `off`. -/
def u64FromBytesLE (buf : List Nat) (off : Nat) : Nat :=
  buf.getD off 0 + buf.getD (off + 1) 0 * 256 ^ 1 + buf.getD (off + 2) 0 * 256 ^ 2 +
  buf.getD (off + 3) 0 * 256 ^ 3 + buf.getD (off + 4) 0 * 256 ^ 4 +
  buf.getD (off + 5) 0 * 256 ^ 5 + buf.getD (off + 6) 0 * 256 ^ 6 +
  buf.getD (off + 7) 0 * 256 ^ 7

/-- `buf.readBigUInt64LE(off)` — throws unless `off + 8 ≤ buf.length`;
reads eight little-endian bytes. -/
def readBigUInt64LE (buf : List Nat) (off : Nat) : Except JsError Nat :=
  if off + 8 ≤ buf.length then .ok (u64FromBytesLE buf off) else .error .rangeError

/-- `buf.slice(start, stop)` — clamps to the buffer bounds, never
throws. -/
def bufferSlice (buf : List Nat) (start stop : Nat) : List Nat :=
  (buf.take stop).drop start

/-- `new PublicKey(bytes)` — web3.js only rejects byte input whose
big-number value needs more than 32 bytes; shorter input is accepted. -/
def newPublicKey (bytes : List Nat) : Except JsError PublicKey :=
  if bytes.length ≤ 32 then .ok ⟨bytes⟩ else .error .invalidPublicKeyInput

/-- `deserializeVault` (`solcat.ts` lines 95–151): sequential fixed-width
reads at cumulative offsets; the `PodOption<u8>` presence byte of the
discriminator is read into `_hasDiscriminator` and ignored.  No length
or discriminator validation is performed by the source; the only failure
paths are the `Buffer` reads themselves. -/
def deserializeVault (data : List Nat) : Except JsError Vault := do
  let _hasDiscriminator ← readUInt8 data 0
  let discriminator ← readUInt8 data 1
  let bump ← readUInt8 data 2
  let admin ← newPublicKey (bufferSlice data 3 35)
  let mint ← newPublicKey (bufferSlice data 35 67)
  let mintDecimals ← readUInt8 data 67
  let vaultToken ← newPublicKey (bufferSlice data 68 100)
  let startSlot ← readBigUInt64LE data 100
  let slotsLocked ← readBigUInt64LE data 108
  let tokensLocked ← readBigUInt64LE data 116
  let reserved := bufferSlice data 124 156
  return ⟨discriminator, bump, admin, mint, mintDecimals, vaultToken,
          startSlot, slotsLocked, tokensLocked, reserved⟩

/-- `lockVaultIx` (`solcat.ts` lines 217–263): derives the vault PDA and
both associated token addresses, then returns the idempotent
vault-ATA-creation instruction followed by the Lock instruction. -/
def lockVaultIx (env : Env) (admin mint : PublicKey) (slotsToLock : Nat)
    (tokensToLock : Option Nat) : List TransactionInstruction :=
  let va := vaultAddress env admin mint
  let vault := va.1
  let vaultBump := va.2
  let adminToken := env.getAssociatedTokenAddressSync mint admin false
  let vaultToken := env.getAssociatedTokenAddressSync mint vault true
  let vaultAtaIx := env.createAssociatedTokenAccountIdempotentIx admin vaultToken vault mint
    env.tokenProgramId
  let keys : List AccountMeta :=
    [⟨vault, false, true⟩,
     ⟨admin, true, true⟩,
     ⟨mint, false, false⟩,
     ⟨adminToken, false, true⟩,
     ⟨vaultToken, false, true⟩,
     ⟨env.tokenProgramId, false, false⟩,
     ⟨env.systemProgramId, false, false⟩]
  let ixData : LockVaultIxData := ⟨vaultBump, slotsToLock, tokensToLock⟩
  let data := serializeLockVaultIxData ixData
  let lockIx : TransactionInstruction := ⟨keys, env.programId, data⟩
  [vaultAtaIx, lockIx]

/-- `emptyVaultIx` (`solcat.ts` lines 265–288): a single instruction, no
preceding creation step. -/
def emptyVaultIx (env : Env) (admin mint : PublicKey) : TransactionInstruction :=
  let vault := (vaultAddress env admin mint).1
  let adminToken := env.getAssociatedTokenAddressSync mint admin false
  let vaultToken := env.getAssociatedTokenAddressSync mint vault true
  let keys : List AccountMeta :=
    [⟨vault, false, true⟩,
     ⟨admin, true, true⟩,
     ⟨mint, false, false⟩,
     ⟨adminToken, false, true⟩,
     ⟨vaultToken, false, true⟩,
     ⟨env.tokenProgramId, false, false⟩,
     ⟨env.systemProgramId, false, false⟩]
  ⟨keys, env.programId, serializeEmptyVaultIxData⟩

/-- The payload of `getVault`'s success case: the vault address string
spread together with the `VaultJSON` fields
(`src/app/app/actions/solana.ts` lines 92–98). -/
structure GetVaultData where
  address : String
  vaultJSON : VaultJSON String
  deriving DecidableEq, Repr

/-- The tagged result of the `getVault` server action:
`{success: true, data}` or `{success: false, error}`. -/
inductive GetVaultResult where
  | ok (data : Option GetVaultData)
  | err (message : String)
  deriving DecidableEq, Repr

/-- The message string of a caught `JsError`
(`error instanceof Error ? error.message : ...`). -/
def JsError.message : JsError → String
  | .rangeError => "Attempt to access memory outside buffer bounds"
  | .invalidPublicKeyInput => "Invalid public key input"

/-- `getVault` (`src/app/app/actions/solana.ts` lines 72–106).  The RPC
connection is modelled as `storage`, mapping an address to the account
data `getAccountInfo` reports (`none` = no account).  Any exception
thrown inside the `try` block lands in the `catch` and becomes
`{success: false, error}`. -/
def getVault (env : Env) (storage : PublicKey → Option (List Nat))
    (admin mint : String) : GetVaultResult :=
  match env.pubKeyFromString admin with
  | none => .err "Invalid public key input"
  | some adminPubkey =>
    match env.pubKeyFromString mint with
    | none => .err "Invalid public key input"
    | some mintPubkey =>
      let vaultPubkey := (vaultAddress env adminPubkey mintPubkey).1
      match storage vaultPubkey with
      | none => .ok none
      | some accountData =>
        match deserializeVault accountData with
        | .error e => .err e.message
        | .ok vault =>
            .ok (some ⟨env.pubKeyToString vaultPubkey,
                       vaultToJSON env.pubKeyToString env.bigIntToString vault⟩)

end Solcat

namespace SolcatPage

/-- `getSlotsLeft` (`src/unnamed/part_004` lines 274–276):
`Math.max(0, (startSlot + slotsLocked) - currentSlot)` on JavaScript
numbers, modelled over `Int`. -/
def getSlotsLeft (startSlot slotsLocked currentSlot : Int) : Int :=
  max 0 ((startSlot + slotsLocked) - currentSlot)

/-- The `disabled` condition of the Empty Vault button
(`src/unnamed/part_004` line 457):
`emptyingVault || !epochInfo || epochInfo.slot <= Number(vault.startSlot) + Number(vault.slotsLocked)`. -/
def emptyVaultButtonDisabled (emptyingVault : Bool) (epochSlot : Option Int)
    (startSlot slotsLocked : Int) : Bool :=
  emptyingVault ||
    match epochSlot with
    | none => true
    | some slot => decide (slot ≤ startSlot + slotsLocked)

/-- The client permits the Empty operation exactly when the button is
not disabled. -/
def clientPermitsEmpty (emptyingVault : Bool) (epochSlot : Option Int)
    (startSlot slotsLocked : Int) : Bool :=
  !emptyVaultButtonDisabled emptyingVault epochSlot startSlot slotsLocked

end SolcatPage

namespace SolcatV0

open Solcat (bufferAlloc u64Byte writeUInt8 writeBigUInt64LE LockVaultIxData)

/-- `serializeLockVaultIxData` from the earlier revision
`src/unnamed/part_001` lines 160–195: a 26-byte buffer
(`1 + 1 + 8 + 16`) with no padding before `slots_to_lock` — opcode at 0,
bump at 1, `slots_to_lock` LE at 2, presence byte at 10, 7 padding bytes,
value LE at 18. -/
def serializeLockVaultIxData (data : LockVaultIxData) : List Nat :=
  let buffer := bufferAlloc 26
  let buffer := writeUInt8 buffer 0 Solcat.LOCK_VAULT_IX_DISCRIMINATOR
  let buffer := writeUInt8 buffer 1 data.vaultBump
  let buffer := writeBigUInt64LE buffer 2 data.slotsToLock
  match data.tokensToLock with
  | some t =>
      let buffer := writeUInt8 buffer 10 1
      -- 7 bytes padding, value at offset 18
      writeBigUInt64LE buffer 18 t
  | none => writeUInt8 buffer 10 0

end SolcatV0

namespace Solcat

/-- The first three writes of the strict serializer (opcode, bump,
`slots_to_lock` at offset 8) on the fresh 32-byte buffer. -/
theorem lockPrefix_eq (b s : Nat) :
    writeBigUInt64LE (writeUInt8 (writeUInt8 (bufferAlloc 32) 0
        LOCK_VAULT_IX_DISCRIMINATOR) 1 b) 8 s =
      [1, b % 256, 0, 0, 0, 0, 0, 0,
       u64Byte s 0, u64Byte s 1, u64Byte s 2, u64Byte s 3,
       u64Byte s 4, u64Byte s 5, u64Byte s 6, u64Byte s 7,
       0, 0, 0, 0, 0, 0, 0, 0, 0, 0, 0, 0, 0, 0, 0, 0] := rfl

/-- Normal form of the strict serializer on `tokensToLock = null`. -/
theorem serializeLock_none_eq (b s : Nat) :
    serializeLockVaultIxData ⟨b, s, none⟩ =
      [1, b % 256, 0, 0, 0, 0, 0, 0,
       u64Byte s 0, u64Byte s 1, u64Byte s 2, u64Byte s 3,
       u64Byte s 4, u64Byte s 5, u64Byte s 6, u64Byte s 7,
       0, 0, 0, 0, 0, 0, 0, 0, 0, 0, 0, 0, 0, 0, 0, 0] := by
  calc serializeLockVaultIxData ⟨b, s, none⟩
      = writeUInt8 (writeBigUInt64LE (writeUInt8 (writeUInt8 (bufferAlloc 32) 0
          LOCK_VAULT_IX_DISCRIMINATOR) 1 b) 8 s) 16 0 := by rfl
    _ = writeUInt8 ([1, b % 256, 0, 0, 0, 0, 0, 0,
          u64Byte s 0, u64Byte s 1, u64Byte s 2, u64Byte s 3,
          u64Byte s 4, u64Byte s 5, u64Byte s 6, u64Byte s 7,
          0, 0, 0, 0, 0, 0, 0, 0, 0, 0, 0, 0, 0, 0, 0, 0]) 16 0 := by
        rw [lockPrefix_eq]
    _ = _ := by rfl

/-- Normal form of the strict serializer on a present `tokensToLock`. -/
theorem serializeLock_some_eq (b s t : Nat) :
    serializeLockVaultIxData ⟨b, s, some t⟩ =
      [1, b % 256, 0, 0, 0, 0, 0, 0,
       u64Byte s 0, u64Byte s 1, u64Byte s 2, u64Byte s 3,
       u64Byte s 4, u64Byte s 5, u64Byte s 6, u64Byte s 7,
       1, 0, 0, 0, 0, 0, 0, 0,
       u64Byte t 0, u64Byte t 1, u64Byte t 2, u64Byte t 3,
       u64Byte t 4, u64Byte t 5, u64Byte t 6, u64Byte t 7] := by
  calc serializeLockVaultIxData ⟨b, s, some t⟩
      = writeBigUInt64LE (writeUInt8 (writeBigUInt64LE (writeUInt8 (writeUInt8
          (bufferAlloc 32) 0 LOCK_VAULT_IX_DISCRIMINATOR) 1 b) 8 s) 16 1) 24 t := by
        rfl
    _ = writeBigUInt64LE (writeUInt8 ([1, b % 256, 0, 0, 0, 0, 0, 0,
          u64Byte s 0, u64Byte s 1, u64Byte s 2, u64Byte s 3,
          u64Byte s 4, u64Byte s 5, u64Byte s 6, u64Byte s 7,
          0, 0, 0, 0, 0, 0, 0, 0, 0, 0, 0, 0, 0, 0, 0, 0]) 16 1) 24 t := by
        rw [lockPrefix_eq]
    _ = _ := by rfl

end Solcat

namespace SolcatV0

open Solcat (bufferAlloc u64Byte writeUInt8 writeBigUInt64LE)

/-- The first three writes of the unpadded serializer (opcode, bump,
`slots_to_lock` at offset 2) on the fresh 26-byte buffer. -/
theorem lockPrefixV0_eq (b s : Nat) :
    writeBigUInt64LE (writeUInt8 (writeUInt8 (bufferAlloc 26) 0
        Solcat.LOCK_VAULT_IX_DISCRIMINATOR) 1 b) 2 s =
      [1, b % 256,
       u64Byte s 0, u64Byte s 1, u64Byte s 2, u64Byte s 3,
       u64Byte s 4, u64Byte s 5, u64Byte s 6, u64Byte s 7,
       0, 0, 0, 0, 0, 0, 0, 0, 0, 0, 0, 0, 0, 0, 0, 0] := rfl

/-- Normal form of the unpadded serializer on `tokensToLock = null`. -/
theorem serializeLockV0_none_eq (b s : Nat) :
    serializeLockVaultIxData ⟨b, s, none⟩ =
      [1, b % 256,
       u64Byte s 0, u64Byte s 1, u64Byte s 2, u64Byte s 3,
       u64Byte s 4, u64Byte s 5, u64Byte s 6, u64Byte s 7,
       0, 0, 0, 0, 0, 0, 0, 0, 0, 0, 0, 0, 0, 0, 0, 0] := by
  calc serializeLockVaultIxData ⟨b, s, none⟩
      = writeUInt8 (writeBigUInt64LE (writeUInt8 (writeUInt8 (bufferAlloc 26) 0
          Solcat.LOCK_VAULT_IX_DISCRIMINATOR) 1 b) 2 s) 10 0 := by rfl
    _ = writeUInt8 ([1, b % 256,
          u64Byte s 0, u64Byte s 1, u64Byte s 2, u64Byte s 3,
          u64Byte s 4, u64Byte s 5, u64Byte s 6, u64Byte s 7,
          0, 0, 0, 0, 0, 0, 0, 0, 0, 0, 0, 0, 0, 0, 0, 0]) 10 0 := by
        rw [lockPrefixV0_eq]
    _ = _ := by rfl

/-- Normal form of the unpadded serializer on a present `tokensToLock`. -/
theorem serializeLockV0_some_eq (b s t : Nat) :
    serializeLockVaultIxData ⟨b, s, some t⟩ =
      [1, b % 256,
       u64Byte s 0, u64Byte s 1, u64Byte s 2, u64Byte s 3,
       u64Byte s 4, u64Byte s 5, u64Byte s 6, u64Byte s 7,
       1, 0, 0, 0, 0, 0, 0, 0,
       u64Byte t 0, u64Byte t 1, u64Byte t 2, u64Byte t 3,
       u64Byte t 4, u64Byte t 5, u64Byte t 6, u64Byte t 7] := by
  calc serializeLockVaultIxData ⟨b, s, some t⟩
      = writeBigUInt64LE (writeUInt8 (writeBigUInt64LE (writeUInt8 (writeUInt8
          (bufferAlloc 26) 0 Solcat.LOCK_VAULT_IX_DISCRIMINATOR) 1 b) 2 s) 10 1) 18 t := by
        rfl
    _ = writeBigUInt64LE (writeUInt8 ([1, b % 256,
          u64Byte s 0, u64Byte s 1, u64Byte s 2, u64Byte s 3,
          u64Byte s 4, u64Byte s 5, u64Byte s 6, u64Byte s 7,
          0, 0, 0, 0, 0, 0, 0, 0, 0, 0, 0, 0, 0, 0, 0, 0]) 10 1) 18 t := by
        rw [lockPrefixV0_eq]
    _ = _ := by rfl

end SolcatV0

namespace Solcat

/-- C1: For every input `(vaultBump, slotsToLock, tokensToLock)` in the
valid `u8`/`u64` ranges, `serializeLockVaultIxData` in the stricter
revision produces the 32-byte buffer with opcode byte 1 at offset 0, the
bump at offset 1, zero padding at offsets 2–7, `slotsToLock` as a
little-endian `u64` at offsets 8–15 (`u64Byte s j = s / 256^j % 256` is
byte `j` of the little-endian encoding), and the presence-tagged
optional field: `tokensToLock = none` yields a zero presence byte at
offset 16 with all remaining bytes zero, while `some t` sets the
presence byte at offset 16 to 1, zero padding at 17–23, and the value as
a little-endian `u64` at offset 24.  Every padding byte is zero. -/
theorem lockPayloadStrictLayout (b s : Nat) (hb : b < 256) :
    serializeLockVaultIxData ⟨b, s, none⟩ =
      [1, b, 0, 0, 0, 0, 0, 0,
       u64Byte s 0, u64Byte s 1, u64Byte s 2, u64Byte s 3,
       u64Byte s 4, u64Byte s 5, u64Byte s 6, u64Byte s 7,
       0, 0, 0, 0, 0, 0, 0, 0, 0, 0, 0, 0, 0, 0, 0, 0] ∧
    (serializeLockVaultIxData ⟨b, s, none⟩).length = 32 ∧
    ∀ t : Nat,
      serializeLockVaultIxData ⟨b, s, some t⟩ =
        [1, b, 0, 0, 0, 0, 0, 0,
         u64Byte s 0, u64Byte s 1, u64Byte s 2, u64Byte s 3,
         u64Byte s 4, u64Byte s 5, u64Byte s 6, u64Byte s 7,
         1, 0, 0, 0, 0, 0, 0, 0,
         u64Byte t 0, u64Byte t 1, u64Byte t 2, u64Byte t 3,
         u64Byte t 4, u64Byte t 5, u64Byte t 6, u64Byte t 7] ∧
      (serializeLockVaultIxData ⟨b, s, some t⟩).length = 32 := by
  have hbm : b % 256 = b := Nat.mod_eq_of_lt hb
  refine ⟨?_, ?_, fun t => ⟨?_, ?_⟩⟩ <;>
    simp [serializeLock_none_eq, serializeLock_some_eq, hbm]

/-- Witness for C1 at `vaultBump = 5`, `slotsToLock = 3`,
`tokensToLock = null`. -/
theorem lockPayloadStrictLayout_witness :
    serializeLockVaultIxData ⟨5, 3, none⟩ =
      [1, 5, 0, 0, 0, 0, 0, 0,
       3, 0, 0, 0, 0, 0, 0, 0,
       0, 0, 0, 0, 0, 0, 0, 0, 0, 0, 0, 0, 0, 0, 0, 0] := by
  have h := (lockPayloadStrictLayout 5 3 (by decide)).1
  simpa [u64Byte] using h

/-- C3: the two revisions of `serializeLockVaultIxData` are mutually
incompatible: for every input the stricter revision yields 32 bytes with
`slotsToLock` at offset 8, while the revision without alignment padding
yields 26 bytes with `slotsToLock` at offset 2, so the two byte
sequences always differ. -/
theorem lockEncodingsIncompatible (b s : Nat) (tok : Option Nat) :
    (Solcat.serializeLockVaultIxData ⟨b, s, tok⟩).length = 32 ∧
    (SolcatV0.serializeLockVaultIxData ⟨b, s, tok⟩).length = 26 ∧
    Solcat.serializeLockVaultIxData ⟨b, s, tok⟩ ≠
      SolcatV0.serializeLockVaultIxData ⟨b, s, tok⟩ ∧
    (∀ j, j < 8 →
      (Solcat.serializeLockVaultIxData ⟨b, s, tok⟩)[8 + j]? = some (u64Byte s j)) ∧
    (∀ j, j < 8 →
      (SolcatV0.serializeLockVaultIxData ⟨b, s, tok⟩)[2 + j]? = some (u64Byte s j)) := by
  have h32 : (Solcat.serializeLockVaultIxData ⟨b, s, tok⟩).length = 32 := by
    cases tok <;> simp [serializeLock_none_eq, serializeLock_some_eq]
  have h26 : (SolcatV0.serializeLockVaultIxData ⟨b, s, tok⟩).length = 26 := by
    cases tok <;> simp [SolcatV0.serializeLockV0_none_eq, SolcatV0.serializeLockV0_some_eq]
  refine ⟨h32, h26, ?_, ?_, ?_⟩
  · intro h
    rw [congrArg List.length h, h26] at h32
    exact absurd h32 (by decide)
  · intro j hj
    cases tok with
    | none => rw [serializeLock_none_eq]; interval_cases j <;> rfl
    | some t => rw [serializeLock_some_eq]; interval_cases j <;> rfl
  · intro j hj
    cases tok with
    | none => rw [SolcatV0.serializeLockV0_none_eq]; interval_cases j <;> rfl
    | some t => rw [SolcatV0.serializeLockV0_some_eq]; interval_cases j <;> rfl

/-- Witness for C3 at `vaultBump = 0`, `slotsToLock = 0`,
`tokensToLock = null`: the two encoders disagree. -/
theorem lockEncodingsIncompatible_witness :
    Solcat.serializeLockVaultIxData ⟨0, 0, none⟩ ≠
      SolcatV0.serializeLockVaultIxData ⟨0, 0, none⟩ :=
  (lockEncodingsIncompatible 0 0 none).2.2.1

end Solcat

namespace Solcat

/-- C4: for every environment and every `(admin, mint)`, the Lock
instruction built by `lockVaultIx` (its last emitted instruction) and
the Empty instruction built by `emptyVaultIx` reference exactly the same
accounts in the same fixed order: vault (writable, non-signer), admin
(writable signer), mint (read-only), admin associated token account
(writable), vault associated token account (writable), token program
(read-only), system program (read-only). -/
theorem lockAndEmptySameAccounts (env : Env) (admin mint : PublicKey)
    (slotsToLock : Nat) (tokensToLock : Option Nat) :
    ((lockVaultIx env admin mint slotsToLock tokensToLock).getLast?).map
        TransactionInstruction.keys = some (emptyVaultIx env admin mint).keys ∧
    (emptyVaultIx env admin mint).keys =
      [⟨(vaultAddress env admin mint).1, false, true⟩,
       ⟨admin, true, true⟩,
       ⟨mint, false, false⟩,
       ⟨env.getAssociatedTokenAddressSync mint admin false, false, true⟩,
       ⟨env.getAssociatedTokenAddressSync mint (vaultAddress env admin mint).1 true,
        false, true⟩,
       ⟨env.tokenProgramId, false, false⟩,
       ⟨env.systemProgramId, false, false⟩] :=
  ⟨rfl, rfl⟩

/-- C5: for every environment and `(admin, mint, slotsToLock,
tokensToLock)`, `lockVaultIx` returns exactly the two-element sequence
whose first element is the idempotent associated-token-account creation
instruction for the vault's associated token address and whose second
element is the Lock instruction carrying the serialized payload. -/
theorem lockVaultIxTwoInstructions (env : Env) (admin mint : PublicKey)
    (slotsToLock : Nat) (tokensToLock : Option Nat) :
    lockVaultIx env admin mint slotsToLock tokensToLock =
      [env.createAssociatedTokenAccountIdempotentIx admin
         (env.getAssociatedTokenAddressSync mint (vaultAddress env admin mint).1 true)
         (vaultAddress env admin mint).1 mint env.tokenProgramId,
       ⟨[⟨(vaultAddress env admin mint).1, false, true⟩,
         ⟨admin, true, true⟩,
         ⟨mint, false, false⟩,
         ⟨env.getAssociatedTokenAddressSync mint admin false, false, true⟩,
         ⟨env.getAssociatedTokenAddressSync mint (vaultAddress env admin mint).1 true,
          false, true⟩,
         ⟨env.tokenProgramId, false, false⟩,
         ⟨env.systemProgramId, false, false⟩],
        env.programId,
        serializeLockVaultIxData
          ⟨(vaultAddress env admin mint).2, slotsToLock, tokensToLock⟩⟩] ∧
    (lockVaultIx env admin mint slotsToLock tokensToLock).length = 2 :=
  ⟨rfl, rfl⟩

/-- C6: the Empty instruction payload is exactly the single opcode byte
2 with no operand fields, and `emptyVaultIx` returns one single
instruction (not a sequence) carrying that payload — in particular no
idempotent account-creation instruction precedes it. -/
theorem emptyVaultSingleOpcodeByte (env : Env) (admin mint : PublicKey) :
    serializeEmptyVaultIxData = [EMPTY_VAULT_IX_DISCRIMINATOR] ∧
    serializeEmptyVaultIxData.length = 1 ∧
    EMPTY_VAULT_IX_DISCRIMINATOR = 2 ∧
    (emptyVaultIx env admin mint).data = [2] :=
  ⟨rfl, rfl, rfl, rfl⟩

/-- C8: `vaultAddress` is a pure deterministic function of its inputs:
repeated calls on the same `(admin, mint)` give the identical
`(address, bump)` pair, and the pair is exactly the program-derived
address for the ordered seed list `["VAULT", adminKeyBytes,
mintKeyBytes]` with the fixed program id (`"VAULT"` being the ASCII
bytes 86, 65, 85, 76, 84). -/
theorem vaultAddressDeterministic (env : Env) (admin mint : PublicKey) :
    vaultAddress env admin mint = vaultAddress env admin mint ∧
    vaultAddress env admin mint =
      env.findProgramAddressSync [VAULT_SEED, admin.bytes, mint.bytes] env.programId ∧
    VAULT_SEED = [86, 65, 85, 76, 84] :=
  ⟨rfl, rfl, rfl⟩

end Solcat

namespace SolcatPage

/-- C9 counterexample: at `startSlot = 0`, `slotsLocked = 10`,
`currentSlot = 10`, the pure predicate `currentSlot ≥ startSlot +
slotsLocked` holds (the spec calls the vault unlockable), yet the client
keeps the Empty button disabled — the claim that the client permits
Empty precisely at `currentSlot ≥ startSlot + slotsLocked` is false on
the code, which compares with `<=` and so requires strict excess. -/
theorem clientEligibilityOffByOne :
    (10 : Int) ≥ 0 + 10 ∧ clientPermitsEmpty false (some 10) 0 10 = false := by
  constructor
  · decide
  · rfl

/-- C9 amended: the client-side mirror enables the Empty operation
precisely when `currentSlot > startSlot + slotsLocked` (strictly one
slot after the spec's pure predicate `currentSlot ≥ startSlot +
slotsLocked`), while `getSlotsLeft` reaches 0 exactly when the pure
predicate `currentSlot ≥ startSlot + slotsLocked` holds. -/
theorem clientEligibilityStrict (startSlot slotsLocked currentSlot : Int) :
    (clientPermitsEmpty false (some currentSlot) startSlot slotsLocked = true ↔
      startSlot + slotsLocked < currentSlot) ∧
    (getSlotsLeft startSlot slotsLocked currentSlot = 0 ↔
      startSlot + slotsLocked ≤ currentSlot) := by
  constructor
  · simp [clientPermitsEmpty, emptyVaultButtonDisabled]
  · simp [getSlotsLeft]

/-- Witness for C9's amended statement at `startSlot = 0`,
`slotsLocked = 10`, `currentSlot = 11`. -/
theorem clientEligibilityStrict_witness :
    clientPermitsEmpty false (some 11) 0 10 = true :=
  (clientEligibilityStrict 0 10 11).1.mpr (by decide)

end SolcatPage

namespace Solcat

/-- C7: for every structurally valid `Vault` record, the transport round
trip holds: re-serializing the parse of a serialized vault reproduces
the serialized form, `vaultToJSON (vaultFromJSON (vaultToJSON v)) =
vaultToJSON v`, whenever the external string codecs satisfy their
contract (parsing a printed key or printed decimal integer returns the
original value).  `vaultFromJSON` is `Option`-valued because the
string constructors throw on malformed input, so the round trip is
stated through `Option.map`. -/
theorem vaultJSONRoundTrip {σ : Type} (pkToString : PublicKey → σ)
    (pkFromString : σ → Option PublicKey) (bigIntToString : Nat → σ)
    (bigIntFromString : σ → Option Nat)
    (hpk : ∀ k, pkFromString (pkToString k) = some k)
    (hbi : ∀ n, bigIntFromString (bigIntToString n) = some n) (v : Vault) :
    (vaultFromJSON pkFromString bigIntFromString
        (vaultToJSON pkToString bigIntToString v)).map
      (vaultToJSON pkToString bigIntToString) =
    some (vaultToJSON pkToString bigIntToString v) := by
  simp [vaultFromJSON, vaultToJSON, hpk, hbi]

/-- Witness for C7 with the transport type `PublicKey ⊕ Nat`, identity
codecs, and a concrete vault. -/
theorem vaultJSONRoundTrip_witness :
    (vaultFromJSON
        (fun s : Sum PublicKey Nat => match s with | .inl k => some k | .inr _ => none)
        (fun s : Sum PublicKey Nat => match s with | .inl _ => none | .inr n => some n)
        (vaultToJSON Sum.inl Sum.inr
          ⟨1, 255, ⟨List.replicate 32 7⟩, ⟨List.replicate 32 9⟩, 9,
           ⟨List.replicate 32 11⟩, 5, 10, 1000, List.replicate 32 0⟩)).map
      (vaultToJSON Sum.inl Sum.inr) =
    some (vaultToJSON Sum.inl Sum.inr
      ⟨1, 255, ⟨List.replicate 32 7⟩, ⟨List.replicate 32 9⟩, 9,
       ⟨List.replicate 32 11⟩, 5, 10, 1000, List.replicate 32 0⟩) :=
  vaultJSONRoundTrip Sum.inl _ Sum.inr _ (fun _ => rfl) (fun _ => rfl) _

/-- C10: for every environment, storage state and admin/mint key
strings that parse, if external storage reports no account at the
derived vault address then `getVault` returns the success result whose
data is null — absence of a vault is a successful empty read, not an
error. -/
theorem getVaultAbsentIsSuccessNull (env : Env)
    (storage : PublicKey → Option (List Nat)) (admin mint : String)
    (adminPk mintPk : PublicKey)
    (hadmin : env.pubKeyFromString admin = some adminPk)
    (hmint : env.pubKeyFromString mint = some mintPk)
    (habsent : storage (vaultAddress env adminPk mintPk).1 = none) :
    getVault env storage admin mint = .ok none := by
  simp [getVault, hadmin, hmint, habsent]

end Solcat

namespace Solcat

/-- Any 32-byte-window slice is accepted by the `PublicKey`
constructor (web3.js only rejects input longer than 32 bytes). -/
theorem newPublicKey_slice_ok (data : List Nat) (start stop : Nat)
    (h : stop ≤ start + 32) :
    newPublicKey (bufferSlice data start stop) =
      .ok ⟨bufferSlice data start stop⟩ := by
  have hl : (bufferSlice data start stop).length ≤ 32 := by
    simp only [bufferSlice, List.length_drop, List.length_take]
    omega
  simp [newPublicKey, hl]

/-- A successful `readUInt8`. -/
theorem readUInt8_ok (buf : List Nat) (off : Nat) (h : off < buf.length) :
    readUInt8 buf off = .ok buf[off] := dif_pos h

/-- An out-of-range `readUInt8`. -/
theorem readUInt8_err (buf : List Nat) (off : Nat) (h : buf.length ≤ off) :
    readUInt8 buf off = .error .rangeError := dif_neg (by omega)

/-- A successful `readBigUInt64LE`. -/
theorem readBigUInt64LE_ok (buf : List Nat) (off : Nat) (h : off + 8 ≤ buf.length) :
    readBigUInt64LE buf off = .ok (u64FromBytesLE buf off) := if_pos h

/-- An out-of-range `readBigUInt64LE`. -/
theorem readBigUInt64LE_err (buf : List Nat) (off : Nat) (h : buf.length < off + 8) :
    readBigUInt64LE buf off = .error .rangeError := if_neg (by omega)

/-- Binding a successful `Except` computation runs the continuation. -/
theorem ok_bind {α β : Type} (a : α) (f : α → Except JsError β) :
    (Except.ok a >>= f) = f a := rfl

/-- Binding a failed `Except` computation propagates the error. -/
theorem error_bind {α β : Type} (e : JsError) (f : α → Except JsError β) :
    ((Except.error e : Except JsError α) >>= f) = .error e := rfl

set_option maxRecDepth 10000 in
/-- C2 counterexample: the fixed total account length is
`1+1+1+32+32+1+32+8+8+8+32 = 156` bytes, yet `deserializeVault` accepts
the 124-byte all-zero buffer (shorter than the fixed length, so the
claimed `TruncatedAccount` error does not occur), and it also accepts
the full-length all-zero buffer whose discriminator presence byte
(offset 0) is unset and whose discriminator (offset 1) is `0 ≠
VAULT_DISCRIMINATOR` (so the claimed `NotInitialized` error does not
occur either). -/
theorem deserializeVaultNoValidation_counterexample :
    (List.replicate 124 (0 : Nat)).length < 156 ∧
    (deserializeVault (List.replicate 124 0)).isOk = true ∧
    (List.replicate 156 (0 : Nat))[0]? = some 0 ∧
    (List.replicate 156 (0 : Nat))[1]? = some 0 ∧
    (0 : Nat) ≠ VAULT_DISCRIMINATOR ∧
    (deserializeVault (List.replicate 156 0)).isOk = true := by
  refine ⟨by decide, rfl, by decide, by decide, by decide, rfl⟩

/-- C2 amended: `deserializeVault` performs no validation at all — it
returns a structured `Vault` for every buffer of length at least 124
(the highest offset its fixed-width reads touch), regardless of the
buffer's total length relative to the fixed 156-byte account size and
regardless of the discriminator bytes, and it fails only with untyped
range errors, exactly when the buffer is shorter than 124 bytes. -/
theorem deserializeVault_isOk_iff (data : List Nat) :
    (deserializeVault data).isOk = true ↔ 124 ≤ data.length := by
  constructor
  · intro h
    by_contra hlen
    push_neg at hlen
    rcases Nat.lt_or_ge data.length 1 with hc | hc
    · simp only [deserializeVault, readUInt8_err data 0 (by omega), error_bind] at h
      exact absurd h (by decide)
    rcases Nat.lt_or_ge data.length 2 with hc2 | hc2
    · simp only [deserializeVault, readUInt8_ok data 0 (by omega), ok_bind,
        readUInt8_err data 1 (by omega), error_bind] at h
      exact absurd h (by decide)
    rcases Nat.lt_or_ge data.length 3 with hc3 | hc3
    · simp only [deserializeVault, readUInt8_ok data 0 (by omega), ok_bind,
        readUInt8_ok data 1 (by omega),
        readUInt8_err data 2 (by omega), error_bind] at h
      exact absurd h (by decide)
    rcases Nat.lt_or_ge data.length 68 with hc4 | hc4
    · simp only [deserializeVault, readUInt8_ok data 0 (by omega), ok_bind,
        readUInt8_ok data 1 (by omega), readUInt8_ok data 2 (by omega),
        newPublicKey_slice_ok data 3 35 (by omega),
        newPublicKey_slice_ok data 35 67 (by omega),
        readUInt8_err data 67 (by omega), error_bind] at h
      exact absurd h (by decide)
    rcases Nat.lt_or_ge data.length 108 with hc5 | hc5
    · simp only [deserializeVault, readUInt8_ok data 0 (by omega), ok_bind,
        readUInt8_ok data 1 (by omega), readUInt8_ok data 2 (by omega),
        newPublicKey_slice_ok data 3 35 (by omega),
        newPublicKey_slice_ok data 35 67 (by omega),
        readUInt8_ok data 67 (by omega),
        newPublicKey_slice_ok data 68 100 (by omega),
        readBigUInt64LE_err data 100 (by omega), error_bind] at h
      exact absurd h (by decide)
    rcases Nat.lt_or_ge data.length 116 with hc6 | hc6
    · simp only [deserializeVault, readUInt8_ok data 0 (by omega), ok_bind,
        readUInt8_ok data 1 (by omega), readUInt8_ok data 2 (by omega),
        newPublicKey_slice_ok data 3 35 (by omega),
        newPublicKey_slice_ok data 35 67 (by omega),
        readUInt8_ok data 67 (by omega),
        newPublicKey_slice_ok data 68 100 (by omega),
        readBigUInt64LE_ok data 100 (by omega),
        readBigUInt64LE_err data 108 (by omega), error_bind] at h
      exact absurd h (by decide)
    · simp only [deserializeVault, readUInt8_ok data 0 (by omega), ok_bind,
        readUInt8_ok data 1 (by omega), readUInt8_ok data 2 (by omega),
        newPublicKey_slice_ok data 3 35 (by omega),
        newPublicKey_slice_ok data 35 67 (by omega),
        readUInt8_ok data 67 (by omega),
        newPublicKey_slice_ok data 68 100 (by omega),
        readBigUInt64LE_ok data 100 (by omega),
        readBigUInt64LE_ok data 108 (by omega),
        readBigUInt64LE_err data 116 (by omega), error_bind] at h
      exact absurd h (by decide)
  · intro h
    simp only [deserializeVault, readUInt8_ok data 0 (by omega), ok_bind,
      readUInt8_ok data 1 (by omega), readUInt8_ok data 2 (by omega),
      newPublicKey_slice_ok data 3 35 (by omega),
      newPublicKey_slice_ok data 35 67 (by omega),
      readUInt8_ok data 67 (by omega),
      newPublicKey_slice_ok data 68 100 (by omega),
      readBigUInt64LE_ok data 100 (by omega),
      readBigUInt64LE_ok data 108 (by omega),
      readBigUInt64LE_ok data 116 (by omega)]
    rfl

/-- Witness for C2's amended statement: a 130-byte buffer deserializes
successfully. -/
theorem deserializeVault_isOk_iff_witness :
    (deserializeVault (List.replicate 130 0)).isOk = true :=
  (deserializeVault_isOk_iff (List.replicate 130 0)).mpr (by simp)

end Solcat

namespace Solcat

/-- Witness for C10: a concrete environment and an empty storage
mapping give a successful null read. -/
theorem getVaultAbsentIsSuccessNull_witness :
    getVault
      ⟨fun _ _ => (⟨List.replicate 32 0⟩, 255),
       fun _ _ _ => ⟨List.replicate 32 0⟩,
       fun _ _ _ _ _ => ⟨[], ⟨List.replicate 32 0⟩, []⟩,
       ⟨List.replicate 32 0⟩, ⟨List.replicate 32 0⟩, ⟨List.replicate 32 0⟩,
       fun _ => some ⟨List.replicate 32 0⟩,
       fun _ => "", fun _ => ""⟩
      (fun _ => none) "admin" "mint" = .ok none :=
  getVaultAbsentIsSuccessNull _ _ "admin" "mint"
    ⟨List.replicate 32 0⟩ ⟨List.replicate 32 0⟩ rfl rfl rfl

end Solcat
